import Mathlib

/-!
A shallow embedding of the span-annotated text core of the note-taking
application (`src/main.rs`).

Strings are modelled as their UTF-8 byte sequences (`List Nat`), because the
Rust source indexes and slices `String`/`&str` values by raw byte offsets
(`&line[a..b]`, `String::replace_range`), which panics when an index is out of
range or falls inside a multi-byte code point.  Panicking operations are
modelled with `Option` (`none` = panic).  The blocking network call inside
`check_suggestions` is modelled by passing the outcome of the request
(`CheckResult`) as an explicit argument; the number of requests a handler
issues is returned alongside the new state where a claim needs it.
-/

/-- The UTF-8 bytes of an ASCII-only string literal (each character of such a
string is a single byte whose value is the code point). Used for concrete test
inputs only. -/
def ascii (s : String) : List Nat :=
  s.data.map Char.toNat

/-- One replacement candidate of a checker finding (`LTSuggestion` in
`main.rs`); `value` holds the UTF-8 bytes of the replacement string. -/
structure LTSuggestion where
  value : List Nat
  deriving DecidableEq

/-- One checker finding (`LTMatch` in `main.rs`): a message, a byte `offset`
into the submitted text, a byte `length`, and the replacement candidates. -/
structure LTMatch where
  message : List Nat
  offset : Nat
  length : Nat
  replacements : List LTSuggestion
  deriving DecidableEq

/-- A parsed checker response (`LTResponse` in `main.rs`). -/
structure LTResponse where
  «matches» : List LTMatch
  deriving DecidableEq

/-- The application state relevant to the span core (`NoteApp` in `main.rs`):
the buffer `note_content` and the current suggestion set.  The file list and
selected-file name play no role in any claim. -/
structure NoteApp where
  note_content : List Nat
  suggestions : List LTMatch
  deriving DecidableEq

/-- A network-level failure of the checker request (`reqwest` error). -/
inductive NetError where
  | connection
  deriving DecidableEq

/-- A failure to parse the response body as `LTResponse` (`resp.json()` error). -/
inductive ParseError where
  | malformed
  deriving DecidableEq

/-- Outcome of the blocking HTTP call performed by `check_suggestions`:
either a transport error, or a body that parses or fails to parse. -/
abbrev CheckResult := Except NetError (Except ParseError LTResponse)

/-- Rust `str::is_char_boundary` on a UTF-8 byte sequence: index 0 and the
end are boundaries; an interior index is a boundary iff the byte there is not
a continuation byte (`0x80..0xBF`). -/
def isCharBoundary (bs : List Nat) (i : Nat) : Bool :=
  if i = 0 then true
  else
    match bs[i]? with
    | some b => decide (b < 0x80) || decide (0xC0 ≤ b)
    | none => decide (i = bs.length)

/-- Rust `&s[a..b]` byte slicing: panics (`none`) unless `a ≤ b ≤ len` and
both endpoints are character boundaries. -/
def sliceBytes (bs : List Nat) (a b : Nat) : Option (List Nat) :=
  if a ≤ b ∧ b ≤ bs.length ∧ isCharBoundary bs a = true ∧ isCharBoundary bs b = true then
    some ((bs.drop a).take (b - a))
  else none

/-- Rust `String::replace_range(a..b, repl)`: panics (`none`) on the same
conditions as slicing; otherwise replaces the byte range with `repl`. -/
def spliceBytes (bs : List Nat) (a b : Nat) (repl : List Nat) : Option (List Nat) :=
  if a ≤ b ∧ b ≤ bs.length ∧ isCharBoundary bs a = true ∧ isCharBoundary bs b = true then
    some (bs.take a ++ repl ++ bs.drop b)
  else none

/-- `NoteApp::check_suggestions`: performs the blocking request, and only when
it succeeds and the body parses does it overwrite `self.suggestions` with
`parsed.matches`, verbatim and unvalidated; on a transport error or a parse
failure the state is left untouched (the `Err` arm only logs). -/
def check_suggestions (st : NoteApp) (res : CheckResult) : NoteApp :=
  match res with
  | .ok (.ok parsed) => { st with suggestions := parsed.«matches» }
  | .ok (.error _) => st
  | .error _ => st

/-- `NoteApp::load_selected_file` (successful read): the buffer is replaced by
the file's content; `self.suggestions` is not touched. -/
def load_selected_file (st : NoteApp) (fileContent : List Nat) : NoteApp :=
  { st with note_content := fileContent }

/-- UTF-8 bytes of the placeholder glyph the suggestions panel shows when a
finding has no replacement candidates (U+274C). -/
def crossMark : List Nat := [0xE2, 0x9D, 0x8C]

/-- The replacement text the suggestions panel shows for a finding:
`suggestion.replacements.get(0).map(|r| r.value).unwrap_or("❌")`. -/
def replacementText (m : LTMatch) : List Nat :=
  ((m.replacements.head?).map LTSuggestion.value).getD crossMark

/-- One row of the suggestions panel: the snippet
`&self.note_content[offset..offset+length]` (a panic, `none`, when the range
is invalid for the current buffer) paired with the replacement text. -/
def suggestionRow (st : NoteApp) (m : LTMatch) : Option (List Nat × List Nat) :=
  (sliceBytes st.note_content m.offset (m.offset + m.length)).map
    (fun snippet => (snippet, replacementText m))

/-- The suggestion-click handler in `NoteApp::update`: looks up the clicked
suggestion; when it has a first replacement, runs
`note_content.replace_range(offset..offset+length, value)` and then calls
`self.check_suggestions()` and breaks.  Returns the new state together with
the number of checker requests the handler issued (`1` exactly when a
replacement was applied), or `none` when `replace_range` panics.  When the
suggestion has no replacement the `if let` fails and nothing happens. -/
def applySuggestionClick (st : NoteApp) (i : Nat) (res : CheckResult) :
    Option (NoteApp × Nat) :=
  match st.suggestions[i]? with
  | none => some (st, 0)
  | some m =>
    match m.replacements.head? with
    | none => some (st, 0)
    | some r =>
      match spliceBytes st.note_content m.offset (m.offset + m.length) r.value with
      | none => none
      | some newContent =>
        some (check_suggestions { st with note_content := newContent } res, 1)

/-- One styled run appended to the `LayoutJob` by the editor render loop:
the run's bytes and whether it uses the highlight format.  (The per-line
line-number prefix and the trailing newline, which the code appends with
their own formats, carry no highlight information and are not modelled.) -/
structure Run where
  text : List Nat
  highlighted : Bool
  deriving DecidableEq

/-- Outcome of the per-line `while cursor < line.len()` loop: the runs it
appends, a panic from an invalid slice, or fuel exhaustion (the loop has not
reached the end of the line after the given number of iterations). -/
inductive RenderOut where
  | done (runs : List Run)
  | panicked
  | spin
  deriving DecidableEq

/-- The inner `for suggestion in &self.suggestions` scan of the render loop:
the first suggestion (in set order) with
`offset >= lineOffset && offset < lineOffset + lineLen && offset - lineOffset == cursor`. -/
def findMatch (sugs : List LTMatch) (lineOffset cursor lineLen : Nat) : Option LTMatch :=
  sugs.find? (fun m =>
    decide (lineOffset ≤ m.offset) && decide (m.offset < lineOffset + lineLen)
      && decide (m.offset - lineOffset = cursor))

/-- The `while cursor < line.len()` loop of the editor render pass, with
explicit fuel (the source loop has no bound of its own).  A matching
suggestion appends `&line[cursor..cursor+len]` with
`len = suggestion.length.min(line.len() - cursor)` as a highlighted run and
advances the cursor by `len`; otherwise `&line[cursor..cursor+1]` is appended
as a base run and the cursor advances by 1. -/
def renderLineLoop (sugs : List LTMatch) (lineOffset : Nat) (line : List Nat) :
    Nat → Nat → RenderOut
  | fuel, cursor =>
    if cursor < line.length then
      match fuel with
      | 0 => .spin
      | fuel' + 1 =>
        match findMatch sugs lineOffset cursor line.length with
        | some m =>
          match sliceBytes line cursor (cursor + min m.length (line.length - cursor)) with
          | none => .panicked
          | some text =>
            match renderLineLoop sugs lineOffset line fuel'
                (cursor + min m.length (line.length - cursor)) with
            | .done rs => .done (⟨text, true⟩ :: rs)
            | r => r
        | none =>
          match sliceBytes line cursor (cursor + 1) with
          | none => .panicked
          | some ch =>
            match renderLineLoop sugs lineOffset line fuel' (cursor + 1) with
            | .done rs => .done (⟨ch, false⟩ :: rs)
            | r => r
    else .done []

/-- Split a byte sequence at every occurrence of byte `b` (the pieces do not
contain `b`); always returns at least one piece. -/
def splitOnByte (b : Nat) : List Nat → List (List Nat)
  | [] => [[]]
  | c :: rest =>
    match splitOnByte b rest with
    | [] => [[c]]
    | p :: ps => if c = b then [] :: p :: ps else (c :: p) :: ps

/-- Strip one trailing carriage-return byte, as Rust's `lines()` does from a
line that was terminated by `\r\n`. -/
def stripCR (l : List Nat) : List Nat :=
  if l.getLast? = some 13 then l.dropLast else l

/-- Rust `str::lines()` on a UTF-8 byte sequence: split on line feeds, drop
the piece after a trailing line feed (and the sole empty piece of the empty
string), and strip the `\r` of every `\r\n`-terminated line. -/
def rustLines (bs : List Nat) : List (List Nat) :=
  match (splitOnByte 10 bs).reverse with
  | [] => []
  | last :: revInit =>
    let init := revInit.reverse.map stripCR
    if last = [] then init else init ++ [last]

/-- Outcome of the whole editor render pass: the runs of every line, a panic,
or a line whose loop ran out of fuel. -/
inductive LayoutOut where
  | done (lineRuns : List (List Run))
  | panicked
  | spin
  deriving DecidableEq

/-- The `for (i, line) in lines.iter().enumerate()` pass: each line is
rendered by `renderLineLoop` starting at cursor 0, and the flat offset then
advances by `line.len() + 1` (the `+1` accounts for the line feed). -/
def renderAll (sugs : List LTMatch) (fuel : Nat) :
    List (List Nat) → Nat → LayoutOut
  | [], _ => .done []
  | line :: rest, offset =>
    match renderLineLoop sugs offset line fuel 0 with
    | .panicked => .panicked
    | .spin => .spin
    | .done rs =>
      match renderAll sugs fuel rest (offset + line.length + 1) with
      | .done rss => .done (rs :: rss)
      | r => r

/-- The editor render pass of `NoteApp::update`: split the buffer into lines
and render each against the suggestion set, walking the flat offset space. -/
def layout (content : List Nat) (sugs : List LTMatch) (fuel : Nat) : LayoutOut :=
  renderAll sugs fuel (rustLines content) 0

/-- Total number of highlighted runs a completed layout produced (`none` when
the layout panicked or span out). -/
def countHighlighted (out : LayoutOut) : Option Nat :=
  match out with
  | .done rss => some ((rss.map (fun rs => (rs.filter (fun r => r.highlighted)).length)).sum)
  | .panicked => none
  | .spin => none

/-- A concrete out-of-range finding: `offset 0`, `length 10`. -/
def badMatch : LTMatch := ⟨ascii "msg", 0, 10, [⟨ascii "x"⟩]⟩

/-- A zero-length finding (`start == end`) sitting at offset 0. -/
def zeroLenMatch : LTMatch := ⟨ascii "msg", 0, 0, [⟨ascii "x"⟩]⟩
/-- Span `A{0,3}` of the spec's shift-correctness test, with the
different-length choice `"Tehh"` (delta +1). -/
def spanA : LTMatch := ⟨ascii "typo", 0, 3, [⟨ascii "Tehh"⟩]⟩
/-- Span `B{8,11}` of the spec's shift-correctness test. -/
def spanB : LTMatch := ⟨ascii "typo", 8, 3, [⟨ascii "sat"⟩]⟩
/-- A finding `{offset 0, length 3}` anchored against the 3-byte buffer
`"abc"`, about to be made stale by an edit. -/
def staleMatch : LTMatch := ⟨ascii "typo", 0, 3, [⟨ascii "The"⟩]⟩
/-- The overlapping pair of findings `{0,5}` and `{2,5}` of the C8
counterexample. -/
def overlapA : LTMatch := ⟨ascii "m1", 0, 5, []⟩
/-- Second element of the overlapping pair for C8. -/
def overlapB : LTMatch := ⟨ascii "m2", 2, 5, []⟩
/-- The spec's boundary-truncation finding: characters 8..14 of a buffer with
a line feed at character 10. -/
def straddleMatch : LTMatch := ⟨ascii "m", 8, 6, [⟨ascii "x"⟩]⟩
/-- A finding with no replacement candidates, over the buffer `"abc"`. -/
def noChoiceMatch : LTMatch := ⟨ascii "m", 0, 1, []⟩

/-- On the line `"ab"` with the zero-length finding at its cursor position,
one iteration of the render loop appends an empty highlighted run and leaves
the cursor where it was, so the loop exhausts any amount of fuel. -/
theorem renderLineLoop_zeroLen_spin (fuel : Nat) :
    renderLineLoop [zeroLenMatch] 0 (ascii "ab") fuel 0 = .spin := by
  induction fuel with
  | zero => rfl
  | succ n ih =>
    have h : renderLineLoop [zeroLenMatch] 0 (ascii "ab") (n + 1) 0
        = match renderLineLoop [zeroLenMatch] 0 (ascii "ab") n 0 with
          | .done rs => .done (⟨[], true⟩ :: rs)
          | r => r := rfl
    rw [h, ih]

/-- Claim C3: for every buffer and every annotation set containing a
zero-length span, the layout pass terminates and produces no visible run for
that span.  REFUTED by the code: on buffer `"ab"` with the zero-length
finding `{offset 0, length 0}`, the render loop matches the finding at cursor
0, appends an empty run, advances the cursor by `len = 0`, and re-matches the
same finding forever — the loop never reaches the end of the line, for any
number of iterations. -/
theorem C3_zeroLength_span_layout_never_terminates (fuel : Nat) :
    layout (ascii "ab") [zeroLenMatch] fuel = .spin := by
  have hr : rustLines (ascii "ab") = [ascii "ab"] := by decide
  unfold layout
  rw [hr]
  simp only [renderAll]
  rw [renderLineLoop_zeroLen_spin]

/-- Claim C2: every offset used to slice the buffer lies on a character
boundary, for every buffer content including multi-byte characters, so no
slicing operation can fail on a non-ASCII buffer.  REFUTED by the code: on
the buffer holding the single character U+00E9 (UTF-8 bytes `C3 A9`), with no
suggestions at all, the render loop's per-character slice `&line[0..1]` cuts
the code point in half and panics, for any positive fuel. -/
theorem C2_render_slices_mid_codepoint (fuel : Nat) :
    layout [0xC3, 0xA9] [] (fuel + 1) = .panicked := rfl

/-- Claim C1: a finding whose end exceeds the buffer length is dropped during
refresh and never causes an out-of-range fault when the buffer is sliced at
its range.  REFUTED by the code: `check_suggestions` stores the parsed
matches without any validation, so the finding `{offset 0, length 10}` lands
unchanged in the set of the 3-byte buffer `"abc"`, and the suggestions
panel's snippet slice `&note_content[0..10]` then faults. -/
theorem C1_invalid_finding_survives_refresh_and_faults :
    (check_suggestions ⟨ascii "abc", []⟩ (.ok (.ok ⟨[badMatch]⟩))).suggestions = [badMatch] ∧
    suggestionRow (check_suggestions ⟨ascii "abc", []⟩ (.ok (.ok ⟨[badMatch]⟩))) badMatch
      = none := by
  exact ⟨rfl, by decide⟩

/-- Claim C4, counterexample: applying span A's choice `"Tehh"` (delta +1) on
buffer `"Teh cat sta."` is claimed to remove A and shift B to `{9,12}`.  In
the code the click handler splices the buffer and then re-checks; when that
re-check fails, the old set — A still present, B still at `{8,11}` — is kept
verbatim, which is not the claimed `[B{9,12}]`. -/
theorem C4_apply_does_not_reanchor :
    applySuggestionClick ⟨ascii "Teh cat sta.", [spanA, spanB]⟩ 0 (.error .connection)
      = some (⟨ascii "Tehh cat sta.", [spanA, spanB]⟩, 1) ∧
    ([spanA, spanB] : List LTMatch) ≠ [⟨ascii "typo", 9, 3, [⟨ascii "sat"⟩]⟩] := by
  exact ⟨by decide, by decide⟩

/-- Claim C4, amended: when the first replacement of the clicked suggestion
is applied, the buffer's byte range `[offset, offset+length)` is replaced by
the choice, and the suggestion set is not edited locally: it becomes whatever
the immediately issued re-check produces (`check_suggestions` of the old set
against the response) — no span is removed or shifted by a delta. -/
theorem C4_apply_splices_then_refreshes (st : NoteApp) (i : Nat) (m : LTMatch)
    (r : LTSuggestion) (res : CheckResult) (c : List Nat)
    (hm : st.suggestions[i]? = some m)
    (hr : m.replacements.head? = some r)
    (hs : spliceBytes st.note_content m.offset (m.offset + m.length) r.value = some c) :
    applySuggestionClick st i res
      = some (check_suggestions { note_content := c, suggestions := st.suggestions } res, 1) := by
  simp only [applySuggestionClick, hm, hr, hs]

/-- Witness for C4 at the spec's own test state. -/
theorem C4_apply_splices_then_refreshes_witness :
    applySuggestionClick ⟨ascii "Teh cat sta.", [spanA, spanB]⟩ 0 (.ok (.ok ⟨[]⟩))
      = some (check_suggestions ⟨ascii "Tehh cat sta.", [spanA, spanB]⟩ (.ok (.ok ⟨[]⟩)), 1) :=
  C4_apply_splices_then_refreshes ⟨ascii "Teh cat sta.", [spanA, spanB]⟩ 0 spanA
    ⟨ascii "Tehh"⟩ (.ok (.ok ⟨[]⟩)) (ascii "Tehh cat sta.") rfl rfl (by decide)

/-- Claim C5: spans anchored against an older buffer never land in the
annotation set of an edited buffer; spans intersecting an edit are removed
and later spans shifted.  REFUTED by the code: no edit path touches
`self.suggestions` (and the blocking request leaves no window in which a
response could be vetted).  Loading a file that replaces the 3-byte buffer
`"abc"` by the empty buffer keeps the span `{0,3}` — which intersects the
whole edit — in the set, and the panel's snippet slice on the new buffer then
faults. -/
theorem C5_stale_span_survives_edit :
    (load_selected_file ⟨ascii "abc", [staleMatch]⟩ []).suggestions = [staleMatch] ∧
    suggestionRow (load_selected_file ⟨ascii "abc", [staleMatch]⟩ []) staleMatch = none := by
  exact ⟨rfl, by decide⟩

/-- Claim C6, counterexample: applying a suggestion is claimed to issue no
checker request.  Clicking the suggestion `{0,3,["The"]}` on buffer
`"Teh cat sta."` makes the handler issue exactly one request (the model's
request count is 1, not 0). -/
theorem C6_apply_issues_a_check :
    (applySuggestionClick ⟨ascii "Teh cat sta.", [staleMatch]⟩ 0 (.error .connection)).map
        (fun p => p.2) ≠ some 0 := by
  decide

/-- Claim C6, amended: applying a suggestion that has a first replacement
issues exactly one checker request — the click handler itself calls
`check_suggestions` right after the splice, rather than leaving any follow-up
refresh to the caller. -/
theorem C6_apply_triggers_exactly_one_check (st : NoteApp) (i : Nat) (m : LTMatch)
    (r : LTSuggestion) (res : CheckResult) (c : List Nat)
    (hm : st.suggestions[i]? = some m)
    (hr : m.replacements.head? = some r)
    (hs : spliceBytes st.note_content m.offset (m.offset + m.length) r.value = some c) :
    (applySuggestionClick st i res).map (fun p => p.2) = some 1 := by
  simp only [applySuggestionClick, hm, hr, hs]
  rfl

/-- Witness for C6 at a concrete click. -/
theorem C6_apply_triggers_exactly_one_check_witness :
    (applySuggestionClick ⟨ascii "Teh cat sta.", [staleMatch]⟩ 0 (.error .connection)).map
        (fun p => p.2) = some 1 :=
  C6_apply_triggers_exactly_one_check ⟨ascii "Teh cat sta.", [staleMatch]⟩ 0 staleMatch
    ⟨ascii "The"⟩ (.error .connection) (ascii "The cat sta.") rfl rfl (by decide)

/-- Claim C7: if the checker request fails, or its response fails to parse,
the suggestion set and the buffer content are left exactly as before the
refresh.  CONFIRMED: both failure arms of `check_suggestions` return the
state unchanged. -/
theorem C7_failed_refresh_leaves_state_unchanged (st : NoteApp) (e : NetError)
    (p : ParseError) :
    check_suggestions st (.error e) = st ∧ check_suggestions st (.ok (.error p)) = st :=
  ⟨rfl, rfl⟩

/-- Claim C8, counterexample: refresh is claimed to drop any candidate that
overlaps an earlier one.  Refreshing with the response containing the
overlapping findings `{0,5}` and `{2,5}` stores both, and they violate the
non-overlap condition `a.end <= b.start or b.end <= a.start`. -/
theorem C8_refresh_keeps_overlapping_spans :
    (check_suggestions ⟨ascii "abcdefgh", []⟩
        (.ok (.ok ⟨[overlapA, overlapB]⟩))).suggestions = [overlapA, overlapB] ∧
    ¬(overlapA.offset + overlapA.length ≤ overlapB.offset ∨
      overlapB.offset + overlapB.length ≤ overlapA.offset) := by
  exact ⟨rfl, by decide⟩

/-- Claim C8, amended: a successful refresh stores the checker response's
matches verbatim — no overlap resolution is performed, so the resulting set
is disjoint only when the response already is. -/
theorem C8_refresh_stores_matches_verbatim (st : NoteApp) (parsed : LTResponse) :
    (check_suggestions st (.ok (.ok parsed))).suggestions = parsed.«matches» := rfl

/-- Claim C9, counterexample: a span straddling a line feed is claimed to
yield one highlighted run on each of the two lines.  On the buffer of ten
`a`s, a line feed, and four `b`s, with the finding covering characters 8–14,
the layout contains exactly one highlighted run, not two: the render loop
clamps the run with `suggestion.length.min(line.len() - rel_offset)` and the
next line's scan requires `suggestion.offset >= offset`, which fails. -/
theorem C9_straddling_span_yields_one_run :
    countHighlighted (layout (ascii "aaaaaaaaaa\nbbbb") [straddleMatch] 32) = some 1 ∧
    (1 : Nat) ≠ 2 := by
  exact ⟨by decide, by decide⟩

/-- Claim C9, amended: a span straddling a line-feed boundary is truncated at
the boundary and contributes a single highlighted run on the line containing
its start — covering only the characters up to the line end — and no run on
any later line (runs carry no span id at all).  Concretely, the finding
covering characters 8–14 of the ten-`a`s/line-feed/four-`b`s buffer yields
the highlighted run `"aa"` on line one and only base runs on line two. -/
theorem C9_straddling_span_truncated_to_first_line :
    layout (ascii "aaaaaaaaaa\nbbbb") [straddleMatch] 32
      = .done [[⟨[97], false⟩, ⟨[97], false⟩, ⟨[97], false⟩, ⟨[97], false⟩,
                ⟨[97], false⟩, ⟨[97], false⟩, ⟨[97], false⟩, ⟨[97], false⟩,
                ⟨[97, 97], true⟩],
               [⟨[98], false⟩, ⟨[98], false⟩, ⟨[98], false⟩, ⟨[98], false⟩]] := by
  decide

/-- Claim C10: a suggestion with an empty replacements list is rendered with
the placeholder `U+274C` as its replacement text, and clicking it changes
neither the buffer nor the suggestion set.  CONFIRMED: the panel uses
`replacements.get(0) ... unwrap_or("❌")`, and the click handler's
`if let Some(replacement) = replacements.get(0)` fails, so nothing runs. -/
theorem C10_empty_replacements_placeholder_and_noop (st : NoteApp) (i : Nat)
    (m : LTMatch) (res : CheckResult)
    (hm : st.suggestions[i]? = some m)
    (hr : m.replacements = []) :
    replacementText m = crossMark ∧ applySuggestionClick st i res = some (st, 0) := by
  constructor
  · simp [replacementText, hr]
  · simp only [applySuggestionClick, hm, hr, List.head?]

/-- Witness for C10 at a concrete empty-replacements suggestion. -/
theorem C10_empty_replacements_placeholder_and_noop_witness :
    replacementText noChoiceMatch = crossMark ∧
    applySuggestionClick ⟨ascii "abc", [noChoiceMatch]⟩ 0 (.error .connection)
      = some (⟨ascii "abc", [noChoiceMatch]⟩, 0) :=
  C10_empty_replacements_placeholder_and_noop ⟨ascii "abc", [noChoiceMatch]⟩ 0
    noChoiceMatch (.error .connection) rfl rfl
